import Mathlib

/-!
Verification of the vnode / block-tree / renderer-interface layer of a Vue-style
reactive UI runtime.  The definitions below are a shallow embedding of the
TypeScript sources, chiefly:

  * `packages/runtime-core/src/vnode.ts` (vnode creation, block tracking,
    children normalization, cloning, identity check),
  * `packages/runtime-core/src/apiCreateApp.ts` (app mount / unmount),
  * the DOM renderer's `nodeOps` and `patchProp` modules.

Modelling conventions:
  * JS numbers used as bitmasks are `Nat` (shape flags) or `Int` (patch flags,
    which include the negative sentinels CACHED = -1 and BAIL = -2).
  * JS `null`/`undefined` distinctions are kept only where the code observes
    them (prop keys); elsewhere both map to `Option.none`.
  * Object reference identity (component objects, instances) is modelled by
    `Nat` identifiers.
  * VNode fields never read by the verified code paths (ref, scopeId, dirs,
    transition, el/anchor/target, staticCount, suspense content) are elided;
    each elision is noted at the definition it concerns.
-/

namespace VueRuntime

/-! ### Flag constants

Mirrored from `@vue/shared` (`shapeFlags.ts` / `patchFlags.ts`), which the
repository imports everywhere but whose source file is not part of this
extract.  The numeric values are the published ones and are relied on by
`vnode.ts` only through the named constants. -/

namespace ShapeFlags

def ELEMENT : Nat := 1
def FUNCTIONAL_COMPONENT : Nat := 2
def STATEFUL_COMPONENT : Nat := 4
def TEXT_CHILDREN : Nat := 8
def ARRAY_CHILDREN : Nat := 16
def SLOTS_CHILDREN : Nat := 32
def TELEPORT : Nat := 64
def SUSPENSE : Nat := 128
def COMPONENT_SHOULD_KEEP_ALIVE : Nat := 256
def COMPONENT_KEPT_ALIVE : Nat := 512

/-- `ShapeFlags.COMPONENT = STATEFUL_COMPONENT | FUNCTIONAL_COMPONENT`. -/
def COMPONENT : Nat := 6

end ShapeFlags

namespace PatchFlags

def TEXT : Int := 1
def CLASS : Int := 2
def STYLE : Int := 4
def PROPS : Int := 8
def FULL_PROPS : Int := 16
def NEED_HYDRATION : Int := 32
def STABLE_FRAGMENT : Int := 64
def KEYED_FRAGMENT : Int := 128
def UNKEYED_FRAGMENT : Int := 256
def NEED_PATCH : Int := 512
def DYNAMIC_SLOTS : Int := 1024
def DEV_ROOT_FRAGMENT : Int := 2048
def CACHED : Int := -1
def BAIL : Int := -2

end PatchFlags

namespace SlotFlags

def STABLE : Nat := 1
def DYNAMIC : Nat := 2
def FORWARDED : Nat := 3

end SlotFlags

/-! ### Keys and props -/

/-- A concrete JS `PropertyKey` usable as a vnode key: a string, a number
(including the `NaN` special case, which is never `===` to itself), or a
symbol (identified by a numeral). -/
inductive KeyVal : Type where
  | str (s : String)
  | num (n : Int)
  | nan
  | sym (id : Nat)
  deriving DecidableEq, Repr

/-- JS strict equality (`===`) on concrete property keys.  `NaN === NaN` is
`false`. -/
def KeyVal.strictEq : KeyVal → KeyVal → Bool
  | .nan, _ => false
  | _, .nan => false
  | .str a, .str b => a == b
  | .num a, .num b => a == b
  | .sym a, .sym b => a == b
  | _, _ => false

/-- The state of the `key` property on a props object: the property may be
absent, present with value `undefined`, present with value `null`, or present
with a concrete key. -/
inductive PropKeyField : Type where
  | absent
  | undefinedKey
  | nullKey
  | val (k : KeyVal)
  deriving DecidableEq, Repr

/-- The `key` slot of a built vnode.  `vnode.ts` initialises it with
`props && normalizeKey(props)`, so the `undef` state is representable but
(provably, claim C10) never produced. -/
inductive RawKey : Type where
  | undef
  | nullK
  | val (k : KeyVal)
  deriving DecidableEq, Repr

/-- JS strict equality on stored vnode keys (`n1.key === n2.key`). -/
def RawKey.strictEq : RawKey → RawKey → Bool
  | .undef, .undef => true
  | .nullK, .nullK => true
  | .val a, .val b => a.strictEq b
  | _, _ => false

/-- A props object.  Only the `key` field is observed by the embedded code
paths (`normalizeKey`, `mergeProps` as used by `cloneVNode`); class / style /
event props and `ref` bookkeeping are elided. -/
structure Props : Type where
  key : PropKeyField
  deriving DecidableEq, Repr

/-- The discriminated vnode type tag: a host element tag string, one of the
special symbols `Text` / `Comment` / `Static` / `Fragment`, the Teleport or
Suspense built-ins, or a (stateful or functional) component identified by
reference id. -/
inductive VType : Type where
  | element (tag : String)
  | text
  | comment
  | staticType
  | fragment
  | teleport
  | suspense
  | statefulComp (id : Nat)
  | functionalComp (id : Nat)
  deriving DecidableEq, Repr

/-! ### The vnode record

`VNode` is a nested mutual inductive: children can be a normalized string, an
array of vnodes, or a (possibly raw) slots object whose slot functions return
more children. -/

mutual

/-- A vnode.  Field order mirrors the object literal in `createBaseVNode`:
type, props, key, children, shapeFlag, patchFlag, dynamicProps,
dynamicChildren, component, appContext.  (`ref`, `scopeId`, `slotScopeIds`,
`dirs`, `transition`, DOM back-references, `staticCount` and the suspense
fields are elided: no verified path reads them.) -/
inductive VNode : Type where
  | mk
      (ty : VType)
      (props : Option Props)
      (key : RawKey)
      (children : VChildren)
      (shapeFlag : Nat)
      (patchFlag : Int)
      (dynamicProps : Option (List String))
      (dynamicChildren : Option (List VNode))
      (component : Option Nat)
      (appContext : Option Nat)

/-- A JS value in `children` position: `null`/`undefined`, a primitive
(string / number / boolean), an array of vnodes, a slots object, or a bare
function (which normalization wraps into a `{ default: fn }` slots object). -/
inductive VChildren : Type where
  | nullC
  | str (s : String)
  | num (n : Int)
  | boolC (b : Bool)
  | arr (xs : List VNode)
  | slots (so : SlotsObj)
  | fnC (f : SlotFn)

/-- A slots object: optional `default` slot, the `_` slot-flag, the `_ctx`
instance back-reference, and whether it is an internal object
(`isInternalObject`). -/
inductive SlotsObj : Type where
  | mk
      (defaultSlot : Option SlotFn)
      (flag : Option Nat)
      (ctx : Option Nat)
      (internal : Bool)

/-- A slot function, modelled by the children it returns when invoked plus the
`_c` compiled-slot marker (whose `_d` toggling is unobservable here). -/
inductive SlotFn : Type where
  | mk (result : VChildren) (compiled : Bool)

end

namespace VNode

def ty : VNode → VType
  | .mk t _ _ _ _ _ _ _ _ _ => t

def props : VNode → Option Props
  | .mk _ p _ _ _ _ _ _ _ _ => p

def key : VNode → RawKey
  | .mk _ _ k _ _ _ _ _ _ _ => k

def children : VNode → VChildren
  | .mk _ _ _ c _ _ _ _ _ _ => c

def shapeFlag : VNode → Nat
  | .mk _ _ _ _ s _ _ _ _ _ => s

def patchFlag : VNode → Int
  | .mk _ _ _ _ _ pf _ _ _ _ => pf

def dynamicProps : VNode → Option (List String)
  | .mk _ _ _ _ _ _ d _ _ _ => d

def dynamicChildren : VNode → Option (List VNode)
  | .mk _ _ _ _ _ _ _ d _ _ => d

def component : VNode → Option Nat
  | .mk _ _ _ _ _ _ _ _ c _ => c

def appContext : VNode → Option Nat
  | .mk _ _ _ _ _ _ _ _ _ a => a

def setChildren : VNode → VChildren → VNode
  | .mk t p k _ s pf dp dc c a, c' => .mk t p k c' s pf dp dc c a

def setShapeFlag : VNode → Nat → VNode
  | .mk t p k c _ pf dp dc co a, s' => .mk t p k c s' pf dp dc co a

def setPatchFlag : VNode → Int → VNode
  | .mk t p k c s _ dp dc co a, pf' => .mk t p k c s pf' dp dc co a

def setDynamicChildren : VNode → Option (List VNode) → VNode
  | .mk t p k c s pf dp _ co a, dc' => .mk t p k c s pf dp dc' co a

def setAppContext : VNode → Option Nat → VNode
  | .mk t p k c s pf dp dc co _, a' => .mk t p k c s pf dp dc co a'

end VNode

namespace SlotsObj

def defaultSlot : SlotsObj → Option SlotFn
  | .mk d _ _ _ => d

def flag : SlotsObj → Option Nat
  | .mk _ f _ _ => f

def internal : SlotsObj → Bool
  | .mk _ _ _ i => i

/-- `children._ctx = x`. -/
def setCtx : SlotsObj → Option Nat → SlotsObj
  | .mk d f _ i, c => .mk d f c i

/-- `children._ = x`. -/
def setFlag : SlotsObj → Option Nat → SlotsObj
  | .mk d _ c i, f => .mk d f c i

end SlotsObj

def SlotFn.result : SlotFn → VChildren
  | .mk r _ => r

/-! ### Block-tree tracking state

`vnode.ts` keeps three module-level mutable variables: `blockStack`,
`currentBlock` and `isBlockTreeEnabled`.  Because every assignment in the
module keeps `currentBlock` equal to the top of `blockStack` (or `null` when
the stack is empty or the top is `null`), `currentBlock` is represented as a
derived view of the stack.  The stack is stored innermost-first (`List.head`
is the JS `blockStack[blockStack.length - 1]`).  The `hasOnce` marker that
`setBlockTracking` attaches to the current block array is elided: no embedded
path reads it. -/

structure BlockState : Type where
  blockStack : List (Option (List VNode))
  isBlockTreeEnabled : Int

/-- The initial module state: empty stack, `isBlockTreeEnabled = 1`. -/
def BlockState.init : BlockState := ⟨[], 1⟩

/-- `currentBlock`, derived: the top of the stack, with both "empty stack" and
"top is null" collapsing to `none` (JS `blockStack[length-1] || null`). -/
def currentBlock (s : BlockState) : Option (List VNode) :=
  s.blockStack.head?.join

/-- `openBlock(disableTracking)`: push a fresh collection array (or `null`
when tracking is disabled, as for v-for fragments) and make it current. -/
def openBlock (disableTracking : Bool) (s : BlockState) : BlockState :=
  { s with blockStack := (if disableTracking then none else some []) :: s.blockStack }

/-- `closeBlock()`: pop, making the enclosing entry (or `null`) current. -/
def closeBlock (s : BlockState) : BlockState :=
  { s with blockStack := s.blockStack.tail }

/-- `setBlockTracking(value)`: add `value` to the re-entrancy counter.
(The `value < 0` branch additionally sets `currentBlock.hasOnce`, elided.) -/
def setBlockTracking (value : Int) (s : BlockState) : BlockState :=
  { s with isBlockTreeEnabled := s.isBlockTreeEnabled + value }

/-- `currentBlock.push(v)`: append to the innermost open collection array;
no-op when there is no current block. -/
def pushCurrentBlock (v : VNode) (s : BlockState) : BlockState :=
  match s.blockStack with
  | some b :: rest => { s with blockStack := some (b ++ [v]) :: rest }
  | _ => s

/-! ### Children normalization and vnode creation -/

/-- Ambient render context: the identity of `currentRenderingInstance` and the
`_` slot-flag of its `slots` object (the only parts `normalizeChildren`
reads).  `currentScopeId` is elided together with the `scopeId` vnode field. -/
structure RenderCtx : Type where
  inst : Option Nat
  instSlotsFlag : Option Nat

/-- `normalizeKey({ key }) = key != null ? key : null`.  JS loose `!= null`
is false exactly for `null` and `undefined`. -/
def normalizeKey (p : Props) : RawKey :=
  match p.key with
  | .val k => .val k
  | _ => .nullK

/-- `props && normalizeKey(props)`: the key stored on a new vnode. -/
def keyOfProps (props : Option Props) : RawKey :=
  match props with
  | none => .nullK
  | some p => normalizeKey p

/-- JS `String(children)` for the primitive cases reaching the final branch of
`normalizeChildren`. -/
def VChildren.jsString : VChildren → String
  | .str s => s
  | .num n => toString n
  | .boolC b => if b then "true" else "false"
  | _ => ""

/-- Whether a children value is one of the primitives reaching the final
(`String(children)`) branch of `normalizeChildren`. -/
def VChildren.isPrim : VChildren → Bool
  | .str _ => true
  | .num _ => true
  | .boolC _ => true
  | _ => false

/-- JS truthiness of a children value (used by the compiled-element branch of
`createBaseVNode`: `else if (children)`). -/
def VChildren.jsTruthy : VChildren → Bool
  | .nullC => false
  | .str s => s ≠ ""
  | .num n => n ≠ 0
  | .boolC b => b
  | _ => true

/-- The text vnode produced by `createTextVNode(s)` (i.e.
`createVNode(Text, null, s, 0)`) in the teleport branch of
`normalizeChildren`: a Text-type vnode with `TEXT_CHILDREN` string children
and patch flag 0.  Lemma `createVNode_text_eq_mkTextVNode` below proves this
agrees with the full creation pipeline and leaves the block state unchanged. -/
def mkTextVNode (s : String) : VNode :=
  .mk .text none .nullK (.str s) ShapeFlags.TEXT_CHILDREN 0 none none none none

/-- `normalizeChildren(vnode, children)`: normalize a raw children value onto
the vnode, OR-ing the matching structural shape flag.  Returns the updated
vnode (the JS original mutates in place).  Walks the source cases in order:
null, array, object (slot unwrap for element/teleport, slots otherwise),
function, primitive (with the teleport-to-array special case). -/
def normalizeChildren (ctx : RenderCtx) (vnode : VNode) :
    VChildren → VNode
  | .nullC =>
    (vnode.setChildren .nullC).setShapeFlag (vnode.shapeFlag ||| 0)
  | .arr xs =>
    (vnode.setChildren (.arr xs)).setShapeFlag
      (vnode.shapeFlag ||| ShapeFlags.ARRAY_CHILDREN)
  | .slots so =>
    if vnode.shapeFlag &&& (ShapeFlags.ELEMENT ||| ShapeFlags.TELEPORT) ≠ 0 then
      -- Normalize slot to plain children for plain element and Teleport
      match so with
      | .mk (some (.mk slotResult _)) _ _ _ => normalizeChildren ctx vnode slotResult
      | .mk none _ _ _ => vnode
    else
      let type := ShapeFlags.SLOTS_CHILDREN
      let slotFlag := so.flag
      let so :=
        if slotFlag = none ∧ ¬ so.internal then
          so.setCtx ctx.inst
        else if slotFlag = some SlotFlags.FORWARDED ∧ ctx.inst.isSome then
          if ctx.instSlotsFlag = some SlotFlags.STABLE then
            so.setFlag (some SlotFlags.STABLE)
          else
            so.setFlag (some SlotFlags.DYNAMIC)
        else so
      let vnode :=
        if slotFlag = some SlotFlags.FORWARDED ∧ ctx.inst.isSome ∧
            ctx.instSlotsFlag ≠ some SlotFlags.STABLE then
          vnode.setPatchFlag (vnode.patchFlag.lor PatchFlags.DYNAMIC_SLOTS)
        else vnode
      (vnode.setChildren (.slots so)).setShapeFlag (vnode.shapeFlag ||| type)
  | .fnC f =>
    let so : SlotsObj := .mk (some f) none ctx.inst false
    (vnode.setChildren (.slots so)).setShapeFlag
      (vnode.shapeFlag ||| ShapeFlags.SLOTS_CHILDREN)
  | c =>
    let s := c.jsString
    if vnode.shapeFlag &&& ShapeFlags.TELEPORT ≠ 0 then
      -- force teleport children to array so it can be moved around
      (vnode.setChildren (.arr [mkTextVNode s])).setShapeFlag
        (vnode.shapeFlag ||| ShapeFlags.ARRAY_CHILDREN)
    else
      (vnode.setChildren (.str s)).setShapeFlag
        (vnode.shapeFlag ||| ShapeFlags.TEXT_CHILDREN)

/-- The block-tracking step at the end of `createBaseVNode` (vnode.ts lines
555-573): push the vnode onto the current block when tracking is enabled, the
vnode is not itself a block node, a current block exists, the vnode needs
patching (positive patch flag, or a component shape flag), and the patch flag
is not the hydration-only `NEED_HYDRATION`. -/
def trackInBlock (vnode : VNode) (shapeFlag : Nat) (isBlockNode : Bool)
    (st : BlockState) : BlockState :=
  if st.isBlockTreeEnabled > 0 ∧ ¬ isBlockNode ∧ (currentBlock st).isSome ∧
      (vnode.patchFlag > 0 ∨ shapeFlag &&& ShapeFlags.COMPONENT ≠ 0) ∧
      vnode.patchFlag ≠ PatchFlags.NEED_HYDRATION then
    pushCurrentBlock vnode st
  else st

/-- `createBaseVNode` (a.k.a. `createElementVNode`): build the vnode record,
normalize children (fully, or by the compiled string/array shortcut), and
track the vnode in the current block when eligible.  The `__COMPAT__` legacy
conversions and the dev NaN-key warning are elided (warnings do not change
state).  Returns the vnode together with the updated block state. -/
def createBaseVNode (ctx : RenderCtx) (ty : VType) (props : Option Props)
    (children : VChildren) (patchFlag : Int)
    (dynamicProps : Option (List String)) (shapeFlag : Nat)
    (isBlockNode : Bool) (needFullChildrenNormalization : Bool)
    (st : BlockState) : VNode × BlockState :=
  let vnode : VNode :=
    .mk ty props (keyOfProps props) children shapeFlag patchFlag
      dynamicProps none none none
  let vnode :=
    if needFullChildrenNormalization then
      -- (the Suspense-specific `type.normalize(vnode)` step is elided:
      -- SuspenseImpl is outside the embedded sources)
      normalizeChildren ctx vnode children
    else if children.jsTruthy then
      -- compiled element vnode - children can only be string or Array
      vnode.setShapeFlag
        (vnode.shapeFlag |||
          (match children with
           | .str _ => ShapeFlags.TEXT_CHILDREN
           | _ => ShapeFlags.ARRAY_CHILDREN))
    else vnode
  (vnode, trackInBlock vnode shapeFlag isBlockNode st)

/-- The default `shapeFlag` argument of `createBaseVNode`:
`type === Fragment ? 0 : ShapeFlags.ELEMENT`. -/
def defaultShapeFlag (ty : VType) : Nat :=
  if ty = .fragment then 0 else ShapeFlags.ELEMENT

/-- The vnode-type argument of `createVNode` before coercion: a falsy JS value
(`null` / `undefined` / `false` / `0` / `''`), the `NULL_DYNAMIC_COMPONENT`
sentinel, or an actual type.  (The `<component :is="vnode"/>` path where an
existing vnode is passed as the type is outside the embedded fragment; no
claim concerns it.) -/
inductive RawVType : Type where
  | jsFalsy
  | nullDynamic
  | someType (t : VType)
  deriving DecidableEq, Repr

/-- The shape-flag bitmap `_createVNode` computes from the (coerced) type:
string → ELEMENT, Suspense → SUSPENSE, Teleport → TELEPORT, object →
STATEFUL_COMPONENT, function → FUNCTIONAL_COMPONENT, otherwise 0 (the
Text/Comment/Static/Fragment symbols). -/
def shapeFlagOfType : VType → Nat
  | .element _ => ShapeFlags.ELEMENT
  | .suspense => ShapeFlags.SUSPENSE
  | .teleport => ShapeFlags.TELEPORT
  | .statefulComp _ => ShapeFlags.STATEFUL_COMPONENT
  | .functionalComp _ => ShapeFlags.FUNCTIONAL_COMPONENT
  | _ => 0

/-- `_createVNode`: coerce an invalid (falsy or `NULL_DYNAMIC_COMPONENT`)
type to `Comment`, compute the shape flag, and defer to `createBaseVNode`
with full children normalization.  Elided as unobservable to the modelled
fields: class-component unwrapping, `__COMPAT__` conversion, and the
class/style normalization of props (only the `key` prop is modelled). -/
def _createVNode (ctx : RenderCtx) (rawTy : RawVType) (props : Option Props)
    (children : VChildren) (patchFlag : Int)
    (dynamicProps : Option (List String)) (isBlockNode : Bool)
    (st : BlockState) : VNode × BlockState :=
  let ty : VType :=
    match rawTy with
    | .jsFalsy => .comment
    | .nullDynamic => .comment
    | .someType t => t
  createBaseVNode ctx ty props children patchFlag dynamicProps
    (shapeFlagOfType ty) isBlockNode true st

/-- `createVNode` (production alias of `_createVNode`; the dev-only
args-transform wrapper is the identity unless a test-utils transformer is
registered, which is elided). -/
def createVNode (ctx : RenderCtx) (rawTy : RawVType) (props : Option Props)
    (children : VChildren) (patchFlag : Int)
    (dynamicProps : Option (List String)) (isBlockNode : Bool)
    (st : BlockState) : VNode × BlockState :=
  _createVNode ctx rawTy props children patchFlag dynamicProps isBlockNode st

/-- `setupBlock(vnode)`: snapshot the collected dynamic children onto the
block vnode (`currentBlock || EMPTY_ARR` when tracking is enabled, `null`
otherwise), close the block, and track the block vnode in its parent block
when tracking is enabled and a parent block exists. -/
def setupBlock (vnode : VNode) (st : BlockState) : VNode × BlockState :=
  let vnode := vnode.setDynamicChildren
    (if st.isBlockTreeEnabled > 0 then some ((currentBlock st).getD []) else none)
  let st := closeBlock st
  let st :=
    if st.isBlockTreeEnabled > 0 ∧ (currentBlock st).isSome then
      pushCurrentBlock vnode st
    else st
  (vnode, st)

/-- `createElementBlock`: create a compiled element/fragment vnode with
`isBlockNode = true` and finish it as a block. -/
def createElementBlock (ctx : RenderCtx) (ty : VType) (props : Option Props)
    (children : VChildren) (patchFlag : Int)
    (dynamicProps : Option (List String)) (shapeFlag : Nat)
    (st : BlockState) : VNode × BlockState :=
  let (v, st) := createBaseVNode ctx ty props children patchFlag dynamicProps
    shapeFlag true false st
  setupBlock v st

/-- `createBlock`: create a vnode with `isBlockNode = true` (so the block does
not track itself) and finish it as a block. -/
def createBlock (ctx : RenderCtx) (rawTy : RawVType) (props : Option Props)
    (children : VChildren) (patchFlag : Int)
    (dynamicProps : Option (List String)) (st : BlockState) :
    VNode × BlockState :=
  let (v, st) := createVNode ctx rawTy props children patchFlag dynamicProps
    true st
  setupBlock v st

/-! ### Cloning and vnode identity -/

/-- `mergeProps` restricted to the modelled `key` field.  The source iterates
the enumerable keys of each argument in order with special cases for `class`,
`style` and event props; `key` falls into the plain-copy branch, so a `key`
property present on the later argument overwrites the earlier one and an
absent one leaves it unchanged. -/
def mergeProps (base extra : Props) : Props :=
  { key := match extra.key with
           | .absent => base.key
           | k => k }

/-- The merged props computed at the top of `cloneVNode`:
`extraProps ? mergeProps(props || {}, extraProps) : props`. -/
def cloneMergedProps (props : Option Props) (extraProps : Option Props) :
    Option Props :=
  match extraProps with
  | some e => some (mergeProps (props.getD ⟨.absent⟩) e)
  | none => props

/-- `cloneVNode(vnode, extraProps)`: rebuild the record with merged props,
re-normalized key, and the `FULL_PROPS` patch-flag adjustment when extra
props are present (CACHED flags reset to `FULL_PROPS`, others OR it in,
fragments keep their flag).  Elided as outside the modelled fields: `ref`
merging (`mergeRef`), the dev-only deep clone of CACHED children,
`ssContent`/`ssFallback` recursion, transition cloning, and `__COMPAT__`
property definition. -/
def cloneVNode (vnode : VNode) (extraProps : Option Props) : VNode :=
  let mergedProps := cloneMergedProps vnode.props extraProps
  .mk vnode.ty mergedProps (keyOfProps mergedProps) vnode.children
    vnode.shapeFlag
    (if extraProps.isSome ∧ vnode.ty ≠ .fragment then
       if vnode.patchFlag = PatchFlags.CACHED then PatchFlags.FULL_PROPS
       else vnode.patchFlag.lor PatchFlags.FULL_PROPS
     else vnode.patchFlag)
    vnode.dynamicProps vnode.dynamicChildren vnode.component vnode.appContext

/-- Clear the given shape-flag bits (JS `flag &= ~mask`). -/
def VNode.clearShapeFlagBits (v : VNode) (mask : Nat) : VNode :=
  v.setShapeFlag (v.shapeFlag ^^^ (v.shapeFlag &&& mask))

/-- Ambient configuration for `isSameVNodeType`: whether this is a dev build
(`__DEV__`) and the HMR dirty-set membership test
(`hmrDirtyComponents.get(type)?.has(instance)`), with components and
instances by reference id. -/
structure HmrConfig : Type where
  dev : Bool
  hmrDirty : VType → Nat → Bool

/-- `isSameVNodeType(n1, n2)`: same type and same key, except that in a dev
build a component vnode whose existing instance is HMR-dirty never matches
(and has its keep-alive shape-flag bits cleared on both nodes, returned here
as the second and third components since the JS code mutates in place). -/
def isSameVNodeType (cfg : HmrConfig) (n1 n2 : VNode) :
    Bool × VNode × VNode :=
  match n1.component with
  | some inst =>
    if cfg.dev ∧ n2.shapeFlag &&& ShapeFlags.COMPONENT ≠ 0 ∧
        cfg.hmrDirty n2.ty inst then
      (false,
       n1.clearShapeFlagBits ShapeFlags.COMPONENT_SHOULD_KEEP_ALIVE,
       n2.clearShapeFlagBits ShapeFlags.COMPONENT_KEPT_ALIVE)
    else
      (decide (n1.ty = n2.ty) && n1.key.strictEq n2.key, n1, n2)
  | none =>
    (decide (n1.ty = n2.ty) && n1.key.strictEq n2.key, n1, n2)

/-! ### Sequences of block operations

To state the nesting invariant (claim C3) we form words over the block-state
transformers defined above and single out the balanced ones. -/

/-- One module-level block operation: `openBlock`, `closeBlock`, the tracking
step of a `createBaseVNode` call, or `setBlockTracking`. -/
inductive BlockOp : Type where
  | openOp (disableTracking : Bool)
  | closeOp
  | createOp (v : VNode) (shapeFlag : Nat) (isBlockNode : Bool)
  | setTrackOp (n : Int)

def execOp : BlockOp → BlockState → BlockState
  | .openOp d => openBlock d
  | .closeOp => closeBlock
  | .createOp v sf b => trackInBlock v sf b
  | .setTrackOp n => setBlockTracking n

def execOps (l : List BlockOp) (s : BlockState) : BlockState :=
  l.foldl (fun s op => execOp op s) s

/-- Balanced words: vnode creations and tracking toggles are neutral, and an
`openBlock` is always closed by a matching `closeBlock` with a balanced word
in between. -/
inductive BalancedOps : List BlockOp → Prop where
  | nil : BalancedOps []
  | createCons {v sf b l} : BalancedOps l →
      BalancedOps (.createOp v sf b :: l)
  | setCons {n l} : BalancedOps l → BalancedOps (.setTrackOp n :: l)
  | blockCons {d inner rest} : BalancedOps inner → BalancedOps rest →
      BalancedOps (.openOp d :: (inner ++ .closeOp :: rest))

/-- Append `ex` to the innermost block entry, when one exists and is a
tracking entry — the only change a balanced word can make to the enclosing
stack. -/
def mapHeadAppend (ex : List VNode) :
    List (Option (List VNode)) → List (Option (List VNode))
  | [] => []
  | none :: r => none :: r
  | some b :: r => some (b ++ ex) :: r

/-! ### Host operations (`nodeOps` of the DOM renderer)

`nodeOps.insert` and `nodeOps.remove` delegate to the standard DOM methods
`Node.insertBefore` / `Node.removeChild` / `Node.parentNode`.  We model one
parent element's ordered child list (`List Nat` of node ids, duplicate-free
in any real DOM); a node "has this parent" exactly when it is a member.  DOM
`insertBefore` semantics follow the WHATWG pre-insert algorithm: validate the
reference child (error — `none` result — when it is not a child of the
parent), fix up a reference equal to the inserted node to its next sibling,
remove the node from its old position, then splice it in. -/

/-- The next sibling of the first occurrence of `c`. -/
def nextSiblingIn : List Nat → Nat → Option Nat
  | [], _ => none
  | x :: xs, c => if x = c then xs.head? else nextSiblingIn xs c

/-- Insert `c` immediately before the first occurrence of `a`; `none` when
`a` is absent. -/
def insertAtAnchor : List Nat → Nat → Nat → Option (List Nat)
  | [], _, _ => none
  | x :: xs, a, c =>
    if x = a then some (c :: x :: xs)
    else (insertAtAnchor xs a c).map (x :: ·)

/-- WHATWG `parent.insertBefore(child, refNode)` on one parent's child list.
`none` models the thrown `NotFoundError` when a non-null reference node is
not a child of the parent. -/
def domInsertBefore (dom : List Nat) (child : Nat) (refNode : Option Nat) :
    Option (List Nat) :=
  match refNode with
  | none => some (dom.erase child ++ [child])
  | some a =>
    if a ∈ dom then
      match (if a = child then nextSiblingIn dom child else some a) with
      | none => some (dom.erase child ++ [child])
      | some a2 => insertAtAnchor (dom.erase child) a2 child
    else none

/-- `nodeOps.insert(child, parent, anchor)`:
`parent.insertBefore(child, anchor || null)` — an `undefined` anchor is
already collapsed into `Option.none`. -/
def nodeOpsInsert (dom : List Nat) (child : Nat) (anchor : Option Nat) :
    Option (List Nat) :=
  domInsertBefore dom child anchor

/-- `nodeOps.remove(child)`: look up `child.parentNode` (membership in the
modelled parent) and call `parent.removeChild(child)` only when a parent
exists; otherwise do nothing. -/
def nodeOpsRemove (dom : List Nat) (child : Nat) : List Nat :=
  if child ∈ dom then dom.erase child else dom

/-! ### `patchProp` of the DOM renderer -/

/-- A DOM element as observed by `patchProp` / `shouldSetAsProp`: its
(uppercase) `tagName`, the set of keys for which JS `key in el` holds, and
the `_isVueCE` custom-element marker. -/
structure Element : Type where
  tagName : String
  keysIn : List String
  isVueCE : Bool
  deriving DecidableEq, Repr

/-- A prop value as discriminated by `patchProp` (`isString` / `isFunction`
checks); functions and objects carry reference ids. -/
inductive PropVal : Type where
  | nullV
  | undefV
  | str (s : String)
  | num (n : Int)
  | boolV (b : Bool)
  | fn (id : Nat)
  | obj (id : Nat)
  deriving DecidableEq, Repr

def PropVal.isStr : PropVal → Bool
  | .str _ => true
  | _ => false

def PropVal.isFn : PropVal → Bool
  | .fn _ => true
  | _ => false

/-- `@vue/shared` `isOn`: `/^on[^a-z]/` — `on` followed by any character that
is not a lowercase letter. -/
def isOn (key : String) : Bool :=
  match key.data with
  | 'o' :: 'n' :: c :: _ => ! c.isLower
  | _ => false

/-- `@vue/shared` `isModelListener`: keys starting with `onUpdate:` (computed
over the character list so that concrete instances reduce definitionally). -/
def isModelListener (key : String) : Bool :=
  "onUpdate:".data.isPrefixOf key.data

/-- `key[0] === c` (JS charAt test), over the character list. -/
def firstCharIs (key : String) (c : Char) : Bool :=
  key.data.head? = some c

/-- `key.slice(1)`, over the character list. -/
def sliceFrom1 (key : String) : String :=
  String.mk (key.data.drop 1)

/-- `isNativeOn` (patchProp.ts): `on` followed by a lowercase letter
(char codes 97–122). -/
def isNativeOn (key : String) : Bool :=
  match key.data with
  | 'o' :: 'n' :: c :: _ => c.isLower
  | _ => false

/-- `/[A-Z]/.test(key)`. -/
def hasUpper (key : String) : Bool :=
  key.data.any Char.isUpper

/-- `@vue/shared` `camelize`: replace every `-(\w)` with the uppercased word
character. -/
def camelizeChars : List Char → List Char
  | '-' :: c :: rest =>
    if c.isAlphanum ∨ c = '_' then c.toUpper :: camelizeChars rest
    else '-' :: camelizeChars (c :: rest)
  | c :: rest => c :: camelizeChars rest
  | [] => []

def camelize (s : String) : String :=
  ⟨camelizeChars s.data⟩

/-- `shouldSetAsProp(el, key, value, isSVG)`: decide DOM property (`true`)
versus attribute (`false`), ported case for case. -/
def shouldSetAsProp (el : Element) (key : String) (value : PropVal)
    (isSVG : Bool) : Bool :=
  if isSVG then
    -- most keys must be set as attribute on svg elements to work
    -- ...except innerHTML & textContent
    if key = "innerHTML" ∨ key = "textContent" then true
    -- or native onclick with function values
    else if key ∈ el.keysIn ∧ isNativeOn key ∧ value.isFn then true
    else false
  else
    -- enumerated attrs with boolean DOM properties: always attributes
    if key = "spellcheck" ∨ key = "draggable" ∨ key = "translate" then false
    -- form property on form elements is readonly
    else if key = "form" then false
    -- <input list> must be set as attribute
    else if key = "list" ∧ el.tagName = "INPUT" then false
    -- <textarea type> must be set as attribute
    else if key = "type" ∧ el.tagName = "TEXTAREA" then false
    -- width/height of embedded tags must be set as attribute
    else if (key = "width" ∨ key = "height") ∧
        (el.tagName = "IMG" ∨ el.tagName = "VIDEO" ∨
         el.tagName = "CANVAS" ∨ el.tagName = "SOURCE") then false
    -- native onclick with string value must be set as attribute
    else if isNativeOn key ∧ value.isStr then false
    else key ∈ el.keysIn

/-- A host mutation performed by `patchProp`, identified by the module it
dispatches to plus the (possibly rewritten) key it passes along. -/
inductive HostAction : Type where
  | actClass
  | actStyle
  | actEvent (key : String)
  | actDOMProp (key : String)
  | actAttr (key : String)
  | storeTrueValue
  | storeFalseValue
  deriving DecidableEq, Repr

/-- `patchProp(el, key, prevValue, nextValue, namespace, parentComponent)`:
the ordered list of host mutations applied.  Ported branch for branch; the
inner `patchClass`/`patchStyle`/... module calls are opaque actions here (the
claim under verification concerns the routing), so `prevValue` and
`parentComponent`, which are only forwarded into those calls, do not affect
the result. -/
def patchProp (el : Element) (key : String) (prevValue nextValue : PropVal)
    (ns : Option String) : List HostAction :=
  let isSVG := ns == some "svg"
  if key = "class" then
    [.actClass]
  else if key = "style" then
    [.actStyle]
  else if isOn key then
    -- ignore v-model listeners
    if ¬ isModelListener key then [.actEvent key] else []
  else
    -- `key[0] === '.' ? (strip, true) : key[0] === '^' ? (strip, false)
    --  : shouldSetAsProp(el, key, nextValue, isSVG)`
    let stripped :=
      if firstCharIs key '.' ∨ firstCharIs key '^' then sliceFrom1 key else key
    let asProp :=
      if firstCharIs key '.' then true
      else if firstCharIs key '^' then false
      else shouldSetAsProp el key nextValue isSVG
    if asProp then
      .actDOMProp stripped ::
        -- also set form state as attributes (#6007), except on custom
        -- elements (#11163)
        (if ¬ (el.tagName.data.contains '-') ∧
            (stripped = "value" ∨ stripped = "checked" ∨
             stripped = "selected") then
          [.actAttr stripped]
        else [])
    else if el.isVueCE ∧ (hasUpper stripped ∨ ¬ nextValue.isStr) then
      -- force set props for possible async custom element (#11081)
      [.actDOMProp (camelize stripped)]
    else
      -- :true-value / :false-value stored as DOM properties, then the
      -- default attribute path
      (if stripped = "true-value" then [.storeTrueValue]
       else if stripped = "false-value" then [.storeFalseValue]
       else []) ++ [.actAttr stripped]

/-- The event-key pattern as worded by the claim under test (refinement
definition, from the spec's words, to be compared with the source's `isOn`):
`on` followed by a capital letter. -/
def specOnCapitalPattern (key : String) : Bool :=
  match key.data with
  | 'o' :: 'n' :: c :: _ => c.isUpper
  | _ => false

/-! ### The app instance (`apiCreateApp.ts`)

`createAppAPI(render, hydrate)` closes over a renderer-supplied `render`
function; the renderer itself is outside the embedded sources, so host work
is recorded as an abstract call log.  The app closure state consists of the
`isMounted` flag, `app._container`, the optional `app._ceVNode` set by the
custom-element wrapper, and the set of containers carrying a `__vue_app__`
back-reference to this app.  Dev-only warnings, devtools notifications and
the HMR `context.reload` closure are elided (they do not change this state).
-/

/-- One recorded host-level call: `render(vnode-or-null, container, ns)`,
`hydrate(vnode, container)`, or the plugin-cleanup pass run by `unmount`. -/
inductive HostCall : Type where
  | render (v : Option VNode) (container : Option Nat) (ns : Option String)
  | hydrate (v : VNode) (container : Nat)
  | cleanup

/-- The `namespace` argument of `app.mount`: a boolean, a namespace string,
or `undefined`. -/
inductive NsArg : Type where
  | boolNs (b : Bool)
  | strNs (s : String)
  | undefNs
  deriving DecidableEq, Repr

/-- `namespace === true → 'svg'`, `namespace === false → undefined`. -/
def normalizeNs : NsArg → Option String
  | .boolNs true => some "svg"
  | .boolNs false => none
  | .strNs s => some s
  | .undefNs => none

/-- The mutable state of one app instance plus its recorded host calls. -/
structure AppState : Type where
  isMounted : Bool
  container : Option Nat
  ceVNode : Option VNode
  refContainers : List Nat
  calls : List HostCall

/-- The state right after `createApp`: not mounted, no container. -/
def AppState.fresh (ceVNode : Option VNode) : AppState :=
  ⟨false, none, ceVNode, [], []⟩

/-- `app.mount(rootContainer, isHydrate, namespace)`.  On the first call:
take `app._ceVNode` or create the root vnode from the root component and
props, attach the app context, render (or hydrate, when requested and a
hydrate function was supplied), flip `isMounted`, record the container and
set its `__vue_app__` back-reference, and return the root vnode (whose
component instance the JS code unwraps via `getComponentPublicInstance`).
Any later call only warns in dev and returns `undefined` (`none`). -/
def appMount (ctx : RenderCtx) (appCtxId : Nat) (rootComponent : VType)
    (rootProps : Option Props) (hasHydrateFn : Bool) (a : AppState)
    (rootContainer : Nat) (isHydrate : Bool) (nsArg : NsArg)
    (st : BlockState) : Option VNode × AppState × BlockState :=
  if ¬ a.isMounted then
    let created :=
      match a.ceVNode with
      | some v => (v, st)
      | none =>
        createVNode ctx (.someType rootComponent) rootProps .nullC 0 none
          false st
    let vnode := created.1.setAppContext (some appCtxId)
    let st := created.2
    let ns := normalizeNs nsArg
    let a :=
      if isHydrate ∧ hasHydrateFn then
        { a with calls := a.calls ++ [HostCall.hydrate vnode rootContainer] }
      else
        { a with calls := a.calls ++ [HostCall.render (some vnode) (some rootContainer) ns] }
    let a := { a with
      isMounted := true
      container := some rootContainer
      refContainers := rootContainer :: a.refContainers }
    (some vnode, a, st)
  else
    (none, a, st)

/-- `app.unmount()`.  Only when mounted: run the plugin cleanup functions,
render `null` into the recorded container, and delete the container's
`__vue_app__` back-reference.  Otherwise only a dev warning is issued and
nothing changes.  (`isMounted` deliberately stays `true`: an app is never
remountable.) -/
def appUnmount (a : AppState) : AppState :=
  if a.isMounted then
    let a := { a with calls := a.calls ++ [HostCall.cleanup] }
    let a := { a with calls := a.calls ++ [HostCall.render none a.container none] }
    match a.container with
    | some c => { a with refContainers := a.refContainers.erase c }
    | none => a
  else a

/-! ### Concrete inputs used by counterexamples and witnesses -/

/-- An empty render context (no current rendering instance). -/
def ctx0 : RenderCtx := ⟨none, none⟩

/-- A block state with one open, empty tracking block. -/
def st1 : BlockState := ⟨[some []], 1⟩

/-- A compiled element vnode with patch flag `TEXT` (eligible for block
tracking). -/
def vSpan1 : VNode :=
  .mk (.element "span") none .nullK .nullC ShapeFlags.ELEMENT PatchFlags.TEXT
    none none none none

/-- A plain element vnode with no children and patch flag 0. -/
def vDiv0 : VNode :=
  .mk (.element "div") none .nullK .nullC ShapeFlags.ELEMENT 0 none none none none

/-- A slots object with no `default` slot, no flag, no context. -/
def soEmpty : SlotsObj := .mk none none none false

/-- A plain DIV element with no special properties. -/
def el0 : Element := ⟨"DIV", [], false⟩

/-! ## Theorems -/

/-! ### Accessor lemmas -/

@[simp]
theorem VNode.ty_mk (t p k c s pf dp dc co a) :
    (VNode.mk t p k c s pf dp dc co a).ty = t := rfl

@[simp]
theorem VNode.props_mk (t p k c s pf dp dc co a) :
    (VNode.mk t p k c s pf dp dc co a).props = p := rfl

@[simp]
theorem VNode.key_mk (t p k c s pf dp dc co a) :
    (VNode.mk t p k c s pf dp dc co a).key = k := rfl

@[simp]
theorem VNode.children_mk (t p k c s pf dp dc co a) :
    (VNode.mk t p k c s pf dp dc co a).children = c := rfl

@[simp]
theorem VNode.shapeFlag_mk (t p k c s pf dp dc co a) :
    (VNode.mk t p k c s pf dp dc co a).shapeFlag = s := rfl

@[simp]
theorem VNode.patchFlag_mk (t p k c s pf dp dc co a) :
    (VNode.mk t p k c s pf dp dc co a).patchFlag = pf := rfl

@[simp]
theorem VNode.dynamicChildren_mk (t p k c s pf dp dc co a) :
    (VNode.mk t p k c s pf dp dc co a).dynamicChildren = dc := rfl

@[simp]
theorem VNode.ty_setChildren (v : VNode) (c) : (v.setChildren c).ty = v.ty := by
  cases v; rfl

@[simp]
theorem VNode.ty_setShapeFlag (v : VNode) (s) : (v.setShapeFlag s).ty = v.ty := by
  cases v; rfl

@[simp]
theorem VNode.ty_setPatchFlag (v : VNode) (pf) : (v.setPatchFlag pf).ty = v.ty := by
  cases v; rfl

@[simp]
theorem VNode.key_setChildren (v : VNode) (c) : (v.setChildren c).key = v.key := by
  cases v; rfl

@[simp]
theorem VNode.key_setShapeFlag (v : VNode) (s) : (v.setShapeFlag s).key = v.key := by
  cases v; rfl

@[simp]
theorem VNode.key_setPatchFlag (v : VNode) (pf) : (v.setPatchFlag pf).key = v.key := by
  cases v; rfl

@[simp]
theorem VNode.props_setChildren (v : VNode) (c) : (v.setChildren c).props = v.props := by
  cases v; rfl

@[simp]
theorem VNode.props_setShapeFlag (v : VNode) (s) : (v.setShapeFlag s).props = v.props := by
  cases v; rfl

@[simp]
theorem VNode.props_setPatchFlag (v : VNode) (pf) : (v.setPatchFlag pf).props = v.props := by
  cases v; rfl

@[simp]
theorem VNode.children_setChildren (v : VNode) (c) : (v.setChildren c).children = c := by
  cases v; rfl

@[simp]
theorem VNode.children_setShapeFlag (v : VNode) (s) :
    (v.setShapeFlag s).children = v.children := by
  cases v; rfl

@[simp]
theorem VNode.children_setPatchFlag (v : VNode) (pf) :
    (v.setPatchFlag pf).children = v.children := by
  cases v; rfl

@[simp]
theorem VNode.shapeFlag_setShapeFlag (v : VNode) (s) : (v.setShapeFlag s).shapeFlag = s := by
  cases v; rfl

@[simp]
theorem VNode.shapeFlag_setChildren (v : VNode) (c) :
    (v.setChildren c).shapeFlag = v.shapeFlag := by
  cases v; rfl

@[simp]
theorem VNode.shapeFlag_setPatchFlag (v : VNode) (pf) :
    (v.setPatchFlag pf).shapeFlag = v.shapeFlag := by
  cases v; rfl

@[simp]
theorem VNode.patchFlag_setChildren (v : VNode) (c) :
    (v.setChildren c).patchFlag = v.patchFlag := by
  cases v; rfl

@[simp]
theorem VNode.patchFlag_setShapeFlag (v : VNode) (s) :
    (v.setShapeFlag s).patchFlag = v.patchFlag := by
  cases v; rfl

@[simp]
theorem VNode.patchFlag_setPatchFlag (v : VNode) (pf) :
    (v.setPatchFlag pf).patchFlag = pf := by
  cases v; rfl

@[simp]
theorem VNode.dynamicChildren_setDynamicChildren (v : VNode) (dc) :
    (v.setDynamicChildren dc).dynamicChildren = dc := by
  cases v; rfl

@[simp]
theorem VNode.key_setAppContext (v : VNode) (a) : (v.setAppContext a).key = v.key := by
  cases v; rfl

@[simp]
theorem VNode.appContext_setAppContext (v : VNode) (a) :
    (v.setAppContext a).appContext = a := by
  cases v; rfl

/-! ### Preservation lemmas for `normalizeChildren` -/

theorem normalizeChildren_ty (ctx : RenderCtx) (v : VNode) (c : VChildren) :
    (normalizeChildren ctx v c).ty = v.ty := by
  induction c using normalizeChildren.induct ctx v with
  | case5 so =>
    cases so
    rw [normalizeChildren.eq_def]
    simp_all
    split_ifs <;> simp_all
  | _ => simp_all [normalizeChildren]

theorem normalizeChildren_key (ctx : RenderCtx) (v : VNode) (c : VChildren) :
    (normalizeChildren ctx v c).key = v.key := by
  induction c using normalizeChildren.induct ctx v with
  | case5 so =>
    cases so
    rw [normalizeChildren.eq_def]
    simp_all
    split_ifs <;> simp_all
  | _ => simp_all [normalizeChildren]

theorem normalizeChildren_props (ctx : RenderCtx) (v : VNode) (c : VChildren) :
    (normalizeChildren ctx v c).props = v.props := by
  induction c using normalizeChildren.induct ctx v with
  | case5 so =>
    cases so
    rw [normalizeChildren.eq_def]
    simp_all
    split_ifs <;> simp_all
  | _ => simp_all [normalizeChildren]

/-- A block state has `currentBlock = some b` exactly when its stack starts
with the tracking entry `b`. -/
theorem currentBlock_eq_some_iff (s : BlockState) (b : List VNode) :
    currentBlock s = some b ↔ ∃ rest, s.blockStack = some b :: rest := by
  cases s with
  | mk stack e =>
    cases stack with
    | nil => simp [currentBlock]
    | cons hd tl => cases hd <;> simp [currentBlock]

/-- C2: `isSameVNodeType(n1, n2)` returns `true` exactly when the two vnodes
have strictly equal types and strictly equal keys (a null key matching a null
key), except that in a dev build a component vnode whose existing instance is
flagged dirty by hot reload never matches. -/
theorem isSameVNodeType_spec (cfg : HmrConfig) (n1 n2 : VNode) :
    ((isSameVNodeType cfg n1 n2).1 = true ↔
      (n1.ty = n2.ty ∧ n1.key.strictEq n2.key = true ∧
        ¬ (cfg.dev = true ∧ n2.shapeFlag &&& ShapeFlags.COMPONENT ≠ 0 ∧
           ∃ inst, n1.component = some inst ∧ cfg.hmrDirty n2.ty inst = true))) ∧
    RawKey.strictEq RawKey.nullK RawKey.nullK = true := by
  constructor
  · cases h : n1.component with
    | none => simp [isSameVNodeType, h]
    | some inst =>
      by_cases hd : cfg.dev = true ∧ n2.shapeFlag &&& ShapeFlags.COMPONENT ≠ 0 ∧
          cfg.hmrDirty n2.ty inst = true
      · simp [isSameVNodeType, h, hd]
      · simp [isSameVNodeType, h, hd]
  · rfl

/-- C4: block-tracking disabling is a re-entrant counter: `setBlockTracking v`
adds `v` to `isBlockTreeEnabled` and touches nothing else; no vnode is
tracked while the counter is `≤ 0`; an eligible vnode is tracked while it is
`> 0`; and any balanced multiset of `setBlockTracking` calls (sum zero)
restores the state exactly. -/
theorem setBlockTracking_spec :
    (∀ (v : Int) (s : BlockState),
        (setBlockTracking v s).isBlockTreeEnabled = s.isBlockTreeEnabled + v ∧
        (setBlockTracking v s).blockStack = s.blockStack) ∧
    (∀ (v : VNode) (sf : Nat) (ibn : Bool) (s : BlockState),
        s.isBlockTreeEnabled ≤ 0 → trackInBlock v sf ibn s = s) ∧
    (∀ (v : VNode) (sf : Nat) (s : BlockState) (b : List VNode),
        s.isBlockTreeEnabled > 0 → currentBlock s = some b →
        v.patchFlag > 0 → v.patchFlag ≠ PatchFlags.NEED_HYDRATION →
        currentBlock (trackInBlock v sf false s) = some (b ++ [v])) ∧
    (∀ (l : List Int) (s : BlockState), l.sum = 0 →
        l.foldl (fun s v => setBlockTracking v s) s = s) := by
  refine ⟨fun v s => ⟨rfl, rfl⟩, ?_, ?_, ?_⟩
  · intro v sf ibn s hle
    rw [trackInBlock, if_neg]
    rintro ⟨h1, -⟩
    omega
  · intro v sf s b hgt hb hpf hne
    obtain ⟨rest, hstack⟩ := (currentBlock_eq_some_iff s b).1 hb
    rw [trackInBlock, if_pos]
    · cases s with
      | mk stack e =>
        simp only at hstack
        subst hstack
        simp [pushCurrentBlock, currentBlock]
    · exact ⟨hgt, by simp, by simp [hb], Or.inl hpf, hne⟩
  · intro l
    induction l with
    | nil => intro s _; rfl
    | cons x xs ih =>
      intro s hsum
      have hs : ∀ (s : BlockState) (l : List Int),
          l.foldl (fun s v => setBlockTracking v s) s =
            ⟨s.blockStack, s.isBlockTreeEnabled + l.sum⟩ := by
        intro s l
        induction l generalizing s with
        | nil => simp
        | cons y ys ihy =>
          simp only [List.foldl_cons]
          rw [ihy]
          simp [setBlockTracking, BlockState.mk.injEq]
          omega
      rw [hs]
      simp at hsum
      simp [hsum]

/-- C4 witness: a `-1` / `+1` pair restores the initial state, and tracking
is off at counter `0`. -/
theorem setBlockTracking_spec_witness :
    ([(-1 : Int), 1].foldl (fun s v => setBlockTracking v s) BlockState.init) =
      BlockState.init :=
  setBlockTracking_spec.2.2.2 [(-1 : Int), 1] BlockState.init (by decide)

/-- C9: `createVNode` coerces a falsy or `NULL_DYNAMIC_COMPONENT` type to a
Comment vnode instead of failing. -/
theorem createVNode_invalid_type (ctx : RenderCtx) (rawTy : RawVType)
    (props : Option Props) (children : VChildren) (pf : Int)
    (dp : Option (List String)) (ibn : Bool) (st : BlockState)
    (h : rawTy = RawVType.jsFalsy ∨ rawTy = RawVType.nullDynamic) :
    (createVNode ctx rawTy props children pf dp ibn st).1.ty = VType.comment := by
  rcases h with h | h <;> subst h <;>
    simp [createVNode, _createVNode, createBaseVNode, normalizeChildren_ty]

/-- C9 witness: creating a vnode with a falsy type yields a Comment vnode. -/
theorem createVNode_invalid_type_witness :
    (createVNode ⟨none, none⟩ RawVType.jsFalsy none VChildren.nullC 0 none false
        BlockState.init).1.ty = VType.comment :=
  createVNode_invalid_type _ _ _ _ _ _ _ _ (Or.inl rfl)

/-- C10: normalized vnode keys are never `undefined`: `keyOfProps` yields
either the props-supplied key or `null`; `createBaseVNode` and `cloneVNode`
store exactly that; and two null keys always satisfy the strict-equality half
of `isSameVNodeType`. -/
theorem vnode_key_normalized_spec :
    (∀ props : Option Props,
        keyOfProps props ≠ RawKey.undef ∧
        (keyOfProps props = RawKey.nullK ∨
          ∃ p k, props = some p ∧ p.key = PropKeyField.val k ∧
            keyOfProps props = RawKey.val k)) ∧
    (∀ ctx ty props children pf dp sf ibn nf st,
        (createBaseVNode ctx ty props children pf dp sf ibn nf st).1.key =
          keyOfProps props) ∧
    (∀ (v : VNode) (extra : Option Props),
        (cloneVNode v extra).key = keyOfProps (cloneMergedProps v.props extra)) ∧
    (∀ p1 p2 : Option Props, keyOfProps p1 = RawKey.nullK →
        keyOfProps p2 = RawKey.nullK →
        (keyOfProps p1).strictEq (keyOfProps p2) = true) := by
  refine ⟨?_, ?_, ?_, ?_⟩
  · intro props
    match props with
    | none => simp [keyOfProps]
    | some p =>
      match hp : p.key with
      | .absent | .undefinedKey | .nullKey => simp [keyOfProps, normalizeKey, hp]
      | .val k =>
        refine ⟨by simp [keyOfProps, normalizeKey, hp], Or.inr ⟨p, k, rfl, hp, ?_⟩⟩
        simp [keyOfProps, normalizeKey, hp]
  · intro ctx ty props children pf dp sf ibn nf st
    simp only [createBaseVNode]
    split_ifs <;> simp [normalizeChildren_key]
  · intro v extra
    rfl
  · intro p1 p2 h1 h2
    rw [h1, h2]
    rfl

/-- C10 witness: two keyless props objects (one absent, one with an
`undefined` key property) both normalize to null keys that match. -/
theorem vnode_key_normalized_witness :
    (keyOfProps none).strictEq (keyOfProps (some ⟨PropKeyField.undefinedKey⟩)) = true :=
  vnode_key_normalized_spec.2.2.2 none (some ⟨PropKeyField.undefinedKey⟩) rfl rfl

@[simp]
theorem pushCurrentBlock_stack (v : VNode) (s : BlockState) :
    (pushCurrentBlock v s).blockStack = mapHeadAppend [v] s.blockStack := by
  cases s with
  | mk stack e =>
    cases stack with
    | nil => rfl
    | cons hd tl => cases hd <;> rfl

@[simp]
theorem mapHeadAppend_nil_extra (L : List (Option (List VNode))) :
    mapHeadAppend [] L = L := by
  cases L with
  | nil => rfl
  | cons hd tl => cases hd <;> simp [mapHeadAppend]

theorem mapHeadAppend_comp (ex1 ex2 : List VNode) (L : List (Option (List VNode))) :
    mapHeadAppend ex2 (mapHeadAppend ex1 L) = mapHeadAppend (ex1 ++ ex2) L := by
  cases L with
  | nil => rfl
  | cons hd tl => cases hd <;> simp [mapHeadAppend]

theorem mapHeadAppend_tail (ex : List VNode) (L : List (Option (List VNode))) :
    (mapHeadAppend ex L).tail = L.tail := by
  cases L with
  | nil => rfl
  | cons hd tl => cases hd <;> rfl

theorem mapHeadAppend_cons (ex : List VNode) (x : Option (List VNode))
    (L : List (Option (List VNode))) :
    mapHeadAppend ex (x :: L) = (x.map (· ++ ex)) :: L := by
  cases x <;> rfl

theorem currentBlock_mapHeadAppend (ex : List VNode)
    (L : List (Option (List VNode))) (e e' : Int) :
    currentBlock ⟨mapHeadAppend ex L, e'⟩ = (currentBlock ⟨L, e⟩).map (· ++ ex) := by
  cases L with
  | nil => rfl
  | cons hd tl => cases hd <;> rfl

@[simp]
theorem execOps_nil (s : BlockState) : execOps [] s = s := rfl

@[simp]
theorem execOps_cons (op : BlockOp) (l : List BlockOp) (s : BlockState) :
    execOps (op :: l) s = execOps l (execOp op s) := rfl

theorem execOps_append (l1 l2 : List BlockOp) (s : BlockState) :
    execOps (l1 ++ l2) s = execOps l2 (execOps l1 s) := by
  simp [execOps, List.foldl_append]

/-- A tracking step changes the stack only by appending to the innermost
tracking entry, and never changes the counter. -/
theorem trackInBlock_stack (v : VNode) (sf : Nat) (ibn : Bool) (s : BlockState) :
    ∃ ex, (trackInBlock v sf ibn s).blockStack = mapHeadAppend ex s.blockStack ∧
      (trackInBlock v sf ibn s).isBlockTreeEnabled = s.isBlockTreeEnabled := by
  rw [trackInBlock]
  split_ifs with h
  · exact ⟨[v], by simp, by cases s with
      | mk stack e => cases stack with
        | nil => rfl
        | cons hd tl => cases hd <;> rfl⟩
  · exact ⟨[], by simp, rfl⟩

/-- Executing a balanced word of block operations only appends to the
innermost enclosing tracking entry. -/
theorem balanced_exec {l : List BlockOp} (h : BalancedOps l) (s : BlockState) :
    ∃ ex e', execOps l s = ⟨mapHeadAppend ex s.blockStack, e'⟩ := by
  induction h generalizing s with
  | nil => exact ⟨[], s.isBlockTreeEnabled, by simp⟩
  | @createCons v sf b l hl ih =>
    obtain ⟨ex0, h0, -⟩ := trackInBlock_stack v sf b s
    obtain ⟨ex, e', hex⟩ := ih (execOp (.createOp v sf b) s)
    refine ⟨ex0 ++ ex, e', ?_⟩
    rw [execOps_cons, hex]
    simp only [execOp] at *
    rw [h0, mapHeadAppend_comp]
  | @setCons n l hl ih =>
    obtain ⟨ex, e', hex⟩ := ih (execOp (.setTrackOp n) s)
    exact ⟨ex, e', by rw [execOps_cons, hex]; rfl⟩
  | @blockCons d inner rest hinner hrest ihinner ihrest =>
    obtain ⟨ex1, e1, h1⟩ := ihinner (openBlock d s)
    obtain ⟨ex2, e2, h2⟩ := ihrest (⟨s.blockStack, e1⟩ : BlockState)
    refine ⟨ex2, e2, ?_⟩
    rw [execOps_cons, execOps_append]
    show execOps (BlockOp.closeOp :: rest) (execOps inner (openBlock d s)) = _
    rw [h1]
    rw [execOps_cons]
    show execOps rest (closeBlock _) = _
    have : closeBlock ⟨mapHeadAppend ex1 (openBlock d s).blockStack, e1⟩ =
        ⟨s.blockStack, e1⟩ := by
      simp [openBlock, closeBlock, mapHeadAppend_cons]
    rw [this, h2]

/-- C1 counterexample: with tracking enabled and an open block, a vnode whose
patch flag is the (nonzero) `NEED_HYDRATION` flag is NOT appended to the
block's dynamic-child list, refuting "exactly when its patch flag is
nonzero". -/
theorem createBaseVNode_track_counterexample :
    (createBaseVNode ctx0 (VType.element "div") none VChildren.nullC
        PatchFlags.NEED_HYDRATION none ShapeFlags.ELEMENT false false st1).1.patchFlag ≠ 0 ∧
    (createBaseVNode ctx0 (VType.element "div") none VChildren.nullC
        PatchFlags.NEED_HYDRATION none ShapeFlags.ELEMENT false false st1).2 = st1 ∧
    st1.isBlockTreeEnabled > 0 ∧ currentBlock st1 = some [] := by
  refine ⟨by decide, rfl, by decide, rfl⟩

/-- C1 (amended): with tracking enabled and an open block, `createBaseVNode`
appends the created vnode to the innermost block exactly when it is not
itself a block node, its patch flag is positive or its shape flag marks a
component, and its patch flag is not `NEED_HYDRATION`; and `setupBlock`
snapshots the collected list (or an empty list) onto the block vnode's
`dynamicChildren` whenever tracking is enabled. -/
theorem createBaseVNode_track_amended :
    (∀ (v : VNode) (sf : Nat) (ibn : Bool) (st : BlockState) (b : List VNode),
        st.isBlockTreeEnabled > 0 → currentBlock st = some b →
        (currentBlock (trackInBlock v sf ibn st) = some (b ++ [v]) ↔
          (ibn = false ∧ (v.patchFlag > 0 ∨ sf &&& ShapeFlags.COMPONENT ≠ 0) ∧
            v.patchFlag ≠ PatchFlags.NEED_HYDRATION))) ∧
    (∀ ctx ty props children pf dp sf ibn nf st,
        (createBaseVNode ctx ty props children pf dp sf ibn nf st).2 =
          trackInBlock (createBaseVNode ctx ty props children pf dp sf ibn nf st).1
            sf ibn st) ∧
    (∀ (v : VNode) (stb : BlockState), stb.isBlockTreeEnabled > 0 →
        (setupBlock v stb).1.dynamicChildren = some ((currentBlock stb).getD [])) := by
  refine ⟨?_, ?_, ?_⟩
  · intro v sf ibn st b hgt hb
    obtain ⟨rest, hstack⟩ := (currentBlock_eq_some_iff st b).1 hb
    rw [trackInBlock]
    by_cases hc : ¬ ibn = true ∧
        (v.patchFlag > 0 ∨ sf &&& ShapeFlags.COMPONENT ≠ 0) ∧
        v.patchFlag ≠ PatchFlags.NEED_HYDRATION
    · rw [if_pos ⟨hgt, hc.1, by simp [hb], hc.2.1, hc.2.2⟩]
      cases st with
      | mk stack e =>
        simp only at hstack
        subst hstack
        simp [pushCurrentBlock, currentBlock]
        exact ⟨by simpa using hc.1, hc.2.1, hc.2.2⟩
    · rw [if_neg]
      · rw [hb]
        simp only [Option.some.injEq]
        constructor
        · intro habs
          exact absurd (List.self_eq_append_right.mp habs) (by simp)
        · rintro ⟨h1, h2, h3⟩
          exact absurd ⟨by simp [h1], h2, h3⟩ hc
      · rintro ⟨-, h1, -, h2, h3⟩
        exact hc ⟨h1, h2, h3⟩
  · intro ctx ty props children pf dp sf ibn nf st
    rfl
  · intro v stb hgt
    simp [setupBlock, hgt]

/-- C1 witness: an eligible vnode (positive TEXT patch flag) created under an
open tracking block is appended. -/
theorem createBaseVNode_track_witness :
    currentBlock (trackInBlock vSpan1 ShapeFlags.ELEMENT false st1) =
      some ([] ++ [vSpan1]) :=
  (createBaseVNode_track_amended.1 vSpan1 ShapeFlags.ELEMENT false st1 []
      (by decide) rfl).mpr ⟨rfl, Or.inl (by decide), by decide⟩

/-- C3: block scopes nest properly: `openBlock` pushes a fresh tracking list
(or a null entry when tracking is disabled) and makes it current;
`closeBlock` undoes an `openBlock` exactly; a finished block is appended as a
dynamic child of its parent block; and any balanced word of block operations
returns `currentBlock` to its prior list (possibly extended in place) and
leaves the enclosing stack untouched. -/
theorem block_nesting_spec :
    (∀ s : BlockState, currentBlock (openBlock false s) = some [] ∧
        currentBlock (openBlock true s) = none) ∧
    (∀ (d : Bool) (s : BlockState), closeBlock (openBlock d s) = s) ∧
    (∀ (v : VNode) (top : Option (List VNode)) (b : List VNode)
        (rest : List (Option (List VNode))) (e : Int), 0 < e →
        (setupBlock v ⟨top :: some b :: rest, e⟩).2 =
          ⟨some (b ++ [(setupBlock v ⟨top :: some b :: rest, e⟩).1]) :: rest, e⟩) ∧
    (∀ (l : List BlockOp), BalancedOps l → ∀ s : BlockState,
        ∃ ex e', execOps l s = ⟨mapHeadAppend ex s.blockStack, e'⟩ ∧
          currentBlock (execOps l s) = (currentBlock s).map (· ++ ex) ∧
          (execOps l s).blockStack.tail = s.blockStack.tail) := by
  refine ⟨fun s => ⟨rfl, rfl⟩, fun d s => by simp [openBlock, closeBlock], ?_, ?_⟩
  · intro v top b rest e he
    simp [setupBlock, closeBlock, currentBlock, he, pushCurrentBlock]
  · intro l hbal s
    obtain ⟨ex, e', hex⟩ := balanced_exec hbal s
    refine ⟨ex, e', hex, ?_, ?_⟩
    · rw [hex]
      cases s with
      | mk stack e => exact currentBlock_mapHeadAppend ex stack e e'
    · rw [hex]
      simp [mapHeadAppend_tail]

/-- C3 witness: an open/create/close round trip around the initial state
leaves the (empty) enclosing stack unchanged. -/
theorem block_nesting_witness :
    (execOps [BlockOp.openOp false, BlockOp.createOp vSpan1 ShapeFlags.ELEMENT false,
        BlockOp.closeOp] BlockState.init).blockStack.tail =
      BlockState.init.blockStack.tail :=
  match block_nesting_spec.2.2.2
      [BlockOp.openOp false, BlockOp.createOp vSpan1 ShapeFlags.ELEMENT false,
        BlockOp.closeOp]
      (BalancedOps.blockCons (BalancedOps.createCons BalancedOps.nil)
        BalancedOps.nil)
      BlockState.init with
  | ⟨ex, e', _, _, h3⟩ => h3


/-- The inner `createTextVNode` of the teleport branch agrees with the full
creation pipeline: `createVNode(Text, null, s, 0)` yields exactly
`mkTextVNode s` and leaves the block state unchanged. -/
theorem createVNode_text_eq_mkTextVNode (ctx : RenderCtx) (s : String)
    (st : BlockState) :
    createVNode ctx (RawVType.someType VType.text) none (VChildren.str s) 0 none
        false st = (mkTextVNode s, st) := by
  simp [createVNode, _createVNode, createBaseVNode, mkTextVNode, shapeFlagOfType,
    normalizeChildren, keyOfProps, ShapeFlags.TELEPORT, ShapeFlags.TEXT_CHILDREN,
    trackInBlock]
  rfl

/-- C5 counterexample: on a plain element vnode, a slots object with no
`default` slot is left exactly as-is by `normalizeChildren`: the children are
not replaced by the slots object and `SLOTS_CHILDREN` is not OR-ed in,
refuting the unconditional "a slots object maps to SLOTS_CHILDREN". -/
theorem normalizeChildren_slots_counterexample :
    normalizeChildren ctx0 vDiv0 (VChildren.slots soEmpty) = vDiv0 ∧
    (normalizeChildren ctx0 vDiv0 (VChildren.slots soEmpty)).shapeFlag &&&
      ShapeFlags.SLOTS_CHILDREN = 0 ∧
    (normalizeChildren ctx0 vDiv0 (VChildren.slots soEmpty)).children =
      VChildren.nullC := by
  refine ⟨rfl, by decide, rfl⟩

/-- C5 (amended): `normalizeChildren` maps null children to null with no
flag; an array to itself with `ARRAY_CHILDREN`; a function to the slots
object `{ default: fn, _ctx }` with `SLOTS_CHILDREN`; a slots object to a
slots object with `SLOTS_CHILDREN` only when the vnode's shape is neither
element nor teleport — on an element/teleport vnode an object child is
instead normalized through its `default` slot when present and left
untouched otherwise; and a remaining primitive to `String(children)` with
`TEXT_CHILDREN`, except on a teleport vnode where it becomes a one-element
array holding a text vnode, with `ARRAY_CHILDREN`. -/
theorem normalizeChildren_amended (ctx : RenderCtx) (v : VNode) :
    ((normalizeChildren ctx v VChildren.nullC).children = VChildren.nullC ∧
      (normalizeChildren ctx v VChildren.nullC).shapeFlag = v.shapeFlag) ∧
    (∀ xs, (normalizeChildren ctx v (VChildren.arr xs)).children = VChildren.arr xs ∧
        (normalizeChildren ctx v (VChildren.arr xs)).shapeFlag =
          v.shapeFlag ||| ShapeFlags.ARRAY_CHILDREN) ∧
    (∀ f, (normalizeChildren ctx v (VChildren.fnC f)).children =
          VChildren.slots (SlotsObj.mk (some f) none ctx.inst false) ∧
        (normalizeChildren ctx v (VChildren.fnC f)).shapeFlag =
          v.shapeFlag ||| ShapeFlags.SLOTS_CHILDREN) ∧
    (∀ so, v.shapeFlag &&& (ShapeFlags.ELEMENT ||| ShapeFlags.TELEPORT) = 0 →
        (∃ so', (normalizeChildren ctx v (VChildren.slots so)).children =
            VChildren.slots so') ∧
        (normalizeChildren ctx v (VChildren.slots so)).shapeFlag =
          v.shapeFlag ||| ShapeFlags.SLOTS_CHILDREN) ∧
    (∀ sr cb fl cx it,
        v.shapeFlag &&& (ShapeFlags.ELEMENT ||| ShapeFlags.TELEPORT) ≠ 0 →
        normalizeChildren ctx v
            (VChildren.slots (SlotsObj.mk (some (SlotFn.mk sr cb)) fl cx it)) =
          normalizeChildren ctx v sr) ∧
    (∀ fl cx it,
        v.shapeFlag &&& (ShapeFlags.ELEMENT ||| ShapeFlags.TELEPORT) ≠ 0 →
        normalizeChildren ctx v (VChildren.slots (SlotsObj.mk none fl cx it)) = v) ∧
    (∀ c : VChildren, c.isPrim = true →
        (v.shapeFlag &&& ShapeFlags.TELEPORT ≠ 0 →
          (normalizeChildren ctx v c).children =
              VChildren.arr [mkTextVNode c.jsString] ∧
            (normalizeChildren ctx v c).shapeFlag =
              v.shapeFlag ||| ShapeFlags.ARRAY_CHILDREN) ∧
        (v.shapeFlag &&& ShapeFlags.TELEPORT = 0 →
          (normalizeChildren ctx v c).children = VChildren.str c.jsString ∧
            (normalizeChildren ctx v c).shapeFlag =
              v.shapeFlag ||| ShapeFlags.TEXT_CHILDREN)) := by
  refine ⟨⟨by simp [normalizeChildren], by simp [normalizeChildren]⟩,
    fun xs => ⟨by simp [normalizeChildren], by simp [normalizeChildren]⟩,
    fun f => ⟨by simp [normalizeChildren], by simp [normalizeChildren]⟩,
    ?_, ?_, ?_, ?_⟩
  · intro so hso
    cases so
    rw [normalizeChildren.eq_def]
    simp [hso]
    split_ifs <;> simp
  · intro sr cb fl cx it hne
    rw [normalizeChildren.eq_def]
    simp [hne]
  · intro fl cx it hne
    rw [normalizeChildren.eq_def]
    simp [hne]
  · intro c hc
    cases c <;> simp [VChildren.isPrim] at hc <;>
      exact ⟨fun ht => ⟨by simp [normalizeChildren, ht, VChildren.jsString],
                        by simp [normalizeChildren, ht]⟩,
             fun ht => ⟨by simp [normalizeChildren, ht, VChildren.jsString],
                        by simp [normalizeChildren, ht]⟩⟩

/-- C5 witness: a numeric child on a non-teleport element becomes its string
form with `TEXT_CHILDREN`. -/
theorem normalizeChildren_amended_witness :
    (normalizeChildren ctx0 vDiv0 (VChildren.num 7)).children =
      VChildren.str "7" :=
  (((normalizeChildren_amended ctx0 vDiv0).2.2.2.2.2.2 (VChildren.num 7)
      (by decide)).2 (by decide)).1


/-- C6 counterexample: `"on-x"` does not match the claimed `on`+capital event
pattern, yet `patchProp` routes it to `patchEvent` (not to a property or
attribute set as the claim requires for non-event keys), because the code's
`isOn` accepts `on` followed by any non-lowercase character. -/
theorem patchProp_event_pattern_counterexample :
    patchProp el0 "on-x" PropVal.nullV (PropVal.fn 0) none =
      [HostAction.actEvent "on-x"] ∧
    specOnCapitalPattern "on-x" = false ∧
    isOn "on-x" = true := ⟨rfl, rfl, rfl⟩

/-- C6 (amended): `patchProp` routes `class` to `patchClass`, `style` to
`patchStyle`, every `isOn` key (`on` + non-lowercase, not only `on` +
capital) that is not a v-model listener to `patchEvent` (v-model listeners
are ignored); every other key without a `.`/`^` prefix override is set as a
DOM property or attribute as decided by `shouldSetAsProp` (the attribute path
subject to the Vue-custom-element property override); on SVG elements
`shouldSetAsProp` accepts only `innerHTML`/`textContent` and in-element
native `on*` keys with function values; and
spellcheck/draggable/translate/form are always attributes for non-SVG
elements. -/
theorem patchProp_routing_amended :
    (∀ el prev next ns, patchProp el "class" prev next ns = [HostAction.actClass]) ∧
    (∀ el prev next ns, patchProp el "style" prev next ns = [HostAction.actStyle]) ∧
    (∀ el key prev next ns, key ≠ "class" → key ≠ "style" → isOn key = true →
        isModelListener key = true → patchProp el key prev next ns = []) ∧
    (∀ el key prev next ns, key ≠ "class" → key ≠ "style" → isOn key = true →
        isModelListener key = false →
        patchProp el key prev next ns = [HostAction.actEvent key]) ∧
    (∀ el key prev next ns, key ≠ "class" → key ≠ "style" → isOn key = false →
        firstCharIs key '.' = false → firstCharIs key '^' = false →
        shouldSetAsProp el key next (ns == some "svg") = true →
        (patchProp el key prev next ns).head? =
          some (HostAction.actDOMProp key)) ∧
    (∀ el key prev next ns, key ≠ "class" → key ≠ "style" → isOn key = false →
        firstCharIs key '.' = false → firstCharIs key '^' = false →
        shouldSetAsProp el key next (ns == some "svg") = false →
        ¬ (el.isVueCE = true ∧ (hasUpper key = true ∨ next.isStr = false)) →
        (patchProp el key prev next ns).getLast? =
          some (HostAction.actAttr key)) ∧
    (∀ el key v, shouldSetAsProp el key v true = true ↔
        (key = "innerHTML" ∨ key = "textContent" ∨
          (key ∈ el.keysIn ∧ isNativeOn key = true ∧ v.isFn = true))) ∧
    (∀ el key v,
        key = "spellcheck" ∨ key = "draggable" ∨ key = "translate" ∨
          key = "form" →
        shouldSetAsProp el key v false = false) := by
  refine ⟨?_, ?_, ?_, ?_, ?_, ?_, ?_, ?_⟩
  · intro el prev next ns
    rfl
  · intro el prev next ns
    rfl
  · intro el key prev next ns h1 h2 h3 h4
    simp [patchProp, h1, h2, h3, h4]
  · intro el key prev next ns h1 h2 h3 h4
    simp [patchProp, h1, h2, h3, h4]
  · intro el key prev next ns h1 h2 h3 hdot hcaret hprop
    simp [patchProp, h1, h2, h3, hdot, hcaret, hprop, sliceFrom1]
  · intro el key prev next ns h1 h2 h3 hdot hcaret hprop hce
    have hce' : ¬ (el.isVueCE = true ∧ (hasUpper key = true ∨ ¬ next.isStr = true)) := by
      simpa [Bool.not_eq_true] using hce
    simp [patchProp, h1, h2, h3, hdot, hcaret, hprop, hce']
    split_ifs <;> simp [List.getLast?]
  · intro el key v
    simp only [shouldSetAsProp, if_true]
    split_ifs with h1 h2 <;> simp_all <;> tauto
  · intro el key v h
    rcases h with h | h | h | h <;> subst h <;> rfl


/-- C6 witness: a camel-case `on` key with a function value is routed to
`patchEvent`. -/
theorem patchProp_routing_witness :
    patchProp el0 "onClick" PropVal.nullV (PropVal.fn 3) none =
      [HostAction.actEvent "onClick"] :=
  patchProp_routing_amended.2.2.2.1 el0 "onClick" PropVal.nullV (PropVal.fn 3)
    none (by decide) (by decide) rfl rfl


/-- `insertAtAnchor` splices the new node immediately before the first
occurrence of the anchor. -/
theorem insertAtAnchor_spec (l : List Nat) (a c : Nat) (ha : a ∈ l) :
    ∃ pre post, l = pre ++ a :: post ∧ a ∉ pre ∧
      insertAtAnchor l a c = some (pre ++ c :: a :: post) := by
  induction l with
  | nil => cases ha
  | cons x xs ih =>
    by_cases hx : x = a
    · subst hx
      exact ⟨[], xs, rfl, by simp, by simp [insertAtAnchor]⟩
    · have ha' : a ∈ xs := by
        cases ha with
        | head => exact absurd rfl hx
        | tail _ h => exact h
      obtain ⟨pre, post, hsplit, hnot, hins⟩ := ih ha'
      refine ⟨x :: pre, post, by simp [hsplit], ?_, ?_⟩
      · simp [hnot]
        exact fun h => hx h.symm
      · simp [insertAtAnchor, hx, hins]

/-- A duplicate-free child list no longer contains an erased node. -/
theorem not_mem_erase_self (dom : List Nat) (child : Nat) (h : dom.Nodup) :
    child ∉ dom.erase child := by
  induction dom with
  | nil => simp
  | cons x xs ih =>
    rw [List.nodup_cons] at h
    by_cases hxc : x = child
    · subst hxc
      rw [List.erase_cons_head]
      exact h.1
    · rw [List.erase_cons_tail]
      · intro hmem
        cases hmem with
        | head => exact hxc rfl
        | tail _ hm => exact ih h.2 hm
      · simpa using hxc

/-- C7: `nodeOps.insert` places the child at the end of the parent's children
when the anchor is null, and immediately before the anchor when the anchor is
a child of the parent; `nodeOps.remove` detaches a node from its parent and
is a no-op when the node has no parent. -/
theorem nodeOps_insert_remove_spec :
    (∀ (dom : List Nat) (child : Nat),
        nodeOpsInsert dom child none = some (dom.erase child ++ [child])) ∧
    (∀ (dom : List Nat) (child a : Nat), a ∈ dom → a ≠ child →
        ∃ pre post, dom.erase child = pre ++ a :: post ∧
          nodeOpsInsert dom child (some a) = some (pre ++ child :: a :: post)) ∧
    (∀ (dom : List Nat) (child : Nat), child ∈ dom →
        nodeOpsRemove dom child = dom.erase child) ∧
    (∀ (dom : List Nat) (child : Nat), child ∉ dom →
        nodeOpsRemove dom child = dom) ∧
    (∀ (dom : List Nat) (child : Nat), dom.Nodup →
        child ∉ nodeOpsRemove dom child) := by
  refine ⟨fun dom child => rfl, ?_, ?_, ?_, ?_⟩
  · intro dom child a ha hne
    have ha' : a ∈ dom.erase child := (List.mem_erase_of_ne hne).2 ha
    obtain ⟨pre, post, hsplit, hnot, hins⟩ := insertAtAnchor_spec _ a child ha'
    refine ⟨pre, post, hsplit, ?_⟩
    simp [nodeOpsInsert, domInsertBefore, ha, hne, hins]
  · intro dom child h
    simp [nodeOpsRemove, h]
  · intro dom child h
    simp [nodeOpsRemove, h]
  · intro dom child hnd
    by_cases h : child ∈ dom
    · simp only [nodeOpsRemove, if_pos h]
      exact not_mem_erase_self dom child hnd
    · simp only [nodeOpsRemove, if_neg h]
      exact h

/-- C7 witness: removing a present child erases it; removing it again is a
no-op. -/
theorem nodeOps_insert_remove_witness :
    nodeOpsRemove [1, 2] 2 = List.erase [1, 2] 2 ∧ nodeOpsRemove [1] 2 = [1] :=
  ⟨nodeOps_insert_remove_spec.2.2.1 [1, 2] 2 (by decide),
   nodeOps_insert_remove_spec.2.2.2.1 [1] 2 (by decide)⟩


/-- C8: an app mounts at most once and unmounts only when mounted.  The first
`mount` creates the root vnode, attaches the app context, renders it into the
container, records the container and its back-reference, and returns the
root vnode handle; any later `mount` changes nothing and returns nothing;
`unmount` performs the cleanup pass and teardown render and removes the
container's back-reference only when mounted, and otherwise changes
nothing. -/
theorem app_mount_unmount_spec (ctx : RenderCtx) (appCtxId : Nat)
    (rootComponent : VType) (rootProps : Option Props) (hasHydrateFn : Bool)
    (a : AppState) (rootContainer : Nat) (nsArg : NsArg) (st : BlockState) :
    (a.isMounted = false → a.ceVNode = none →
      (appMount ctx appCtxId rootComponent rootProps hasHydrateFn a
          rootContainer false nsArg st).1 =
        some ((createVNode ctx (RawVType.someType rootComponent) rootProps
            VChildren.nullC 0 none false st).1.setAppContext (some appCtxId)) ∧
      ((appMount ctx appCtxId rootComponent rootProps hasHydrateFn a
          rootContainer false nsArg st).1.map VNode.appContext) =
        some (some appCtxId) ∧
      (appMount ctx appCtxId rootComponent rootProps hasHydrateFn a
          rootContainer false nsArg st).2.1.calls =
        a.calls ++ [HostCall.render
          ((appMount ctx appCtxId rootComponent rootProps hasHydrateFn a
              rootContainer false nsArg st).1)
          (some rootContainer) (normalizeNs nsArg)] ∧
      (appMount ctx appCtxId rootComponent rootProps hasHydrateFn a
          rootContainer false nsArg st).2.1.isMounted = true ∧
      (appMount ctx appCtxId rootComponent rootProps hasHydrateFn a
          rootContainer false nsArg st).2.1.container = some rootContainer ∧
      rootContainer ∈ (appMount ctx appCtxId rootComponent rootProps
          hasHydrateFn a rootContainer false nsArg st).2.1.refContainers) ∧
    (a.isMounted = true → ∀ isHydrate,
      appMount ctx appCtxId rootComponent rootProps hasHydrateFn a
          rootContainer isHydrate nsArg st = (none, a, st)) ∧
    (a.isMounted = true → ∀ c, a.container = some c →
      (appUnmount a).calls =
        a.calls ++ [HostCall.cleanup, HostCall.render none (some c) none] ∧
      (appUnmount a).refContainers = a.refContainers.erase c ∧
      (appUnmount a).container = a.container ∧
      (appUnmount a).ceVNode = a.ceVNode) ∧
    (a.isMounted = false → appUnmount a = a) := by
  refine ⟨?_, ?_, ?_, ?_⟩
  · intro hm hce
    simp [appMount, hm, hce]
  · intro hm isHydrate
    simp [appMount, hm]
  · intro hm c hc
    simp [appUnmount, hm, hc]
  · intro hm
    simp [appUnmount, hm]

/-- C8 witness: a fresh app mounts into container 5; a second mount is a
no-op; unmounting a never-mounted app is a no-op. -/
theorem app_mount_unmount_witness :
    (appMount ctx0 0 (VType.statefulComp 0) none false (AppState.fresh none) 5
        false NsArg.undefNs BlockState.init).2.1.isMounted = true ∧
    appUnmount (AppState.fresh none) = AppState.fresh none :=
  ⟨((app_mount_unmount_spec ctx0 0 (VType.statefulComp 0) none false
      (AppState.fresh none) 5 NsArg.undefNs BlockState.init).1 rfl rfl).2.2.2.1,
   (app_mount_unmount_spec ctx0 0 (VType.statefulComp 0) none false
      (AppState.fresh none) 5 NsArg.undefNs BlockState.init).2.2.2 rfl⟩


end VueRuntime
